import Mathlib

/-!
Verification of `tensorflow/core/data/service/worker_client.cc` (fastflow
variant): a shallow embedding of the data-transfer client core — the
bandwidth throttle (`ByteBlockChecker`), the gRPC transfer client, the local
transfer client, the worker-client session wrapper and the protocol
registrars — together with theorems settling the specification claims.

Machine integers (`int64_t`) are modelled as `Int`; the one floating-point
expression in the source (`ByteBlockChecker::AddAndSleepCheck`'s expected
sleep time) is modelled by exact rational arithmetic truncated toward zero,
which agrees with the C++ `double` computation on all the values the
theorems below evaluate it at.
-/

set_option autoImplicit false

namespace WorkerClient

/-- Error codes of `tensorflow::Status` as used in this translation unit,
plus a constructor for codes carried over from a wrapped `grpc::Status`. -/
inductive StatusCode where
  | ok
  | cancelled
  | internalErr
  | fromGrpc (code : Nat)
  deriving DecidableEq, Repr

/-- `tensorflow::Status`: an error code plus a message. -/
structure Status where
  code : StatusCode
  msg : String
  deriving DecidableEq, Repr

/-- `Status::OK()`. -/
def Status.okStatus : Status := { code := .ok, msg := "" }

/-- `grpc::Status` as observed by the client: `ok()` plus code and message. -/
structure GrpcStatus where
  isOk : Bool
  code : Nat
  msg : String
  deriving DecidableEq, Repr

/-- `grpc_util::WrapError(message, s)` (external collaborator): produces a
`tensorflow::Status` carrying the gRPC status code and a prefixed message. -/
def wrapError (message : String) (s : GrpcStatus) : Status :=
  { code := .fromGrpc s.code, msg := message ++ ": " ++ s.msg }

/-- An in-memory tensor as this file produces them: either the `DT_VARIANT`
scalar wrapping a compressed element, a tensor parsed from a proto, or the
default-constructed tensor left by `emplace_back` when `FromProto` fails. -/
inductive Tensor where
  | variantComp (blob : Nat)
  | parsed (payload : Nat)
  | emptyT
  deriving DecidableEq, Repr

/-- A serialized tensor component; `wellFormed` records whether
`Tensor::FromProto` succeeds on it. -/
structure TensorProto where
  wellFormed : Bool
  payload : Nat
  deriving DecidableEq, Repr

/-- `Tensor::FromProto`: parse a proto into a tensor, or fail. -/
def TensorProto.fromProto (p : TensorProto) : Option Tensor :=
  if p.wellFormed then some (.parsed p.payload) else none

/-- `GetElementRequest`: the task id plus its serialized size
(`ByteSizeLong`). -/
structure GetElementRequest where
  task_id : Int
  byteSize : Int
  deriving DecidableEq, Repr

/-- The `element` oneof of `GetElementResponse`. -/
inductive ElementCase where
  | compressed (blob : Nat)
  | uncompressed (components : List TensorProto)
  | notSet
  deriving DecidableEq, Repr

/-- `GetElementResponse`: end-of-sequence and skip flags, the element oneof,
and the serialized size (`ByteSizeLong`). -/
structure GetElementResponse where
  end_of_sequence : Bool
  skip_task : Bool
  element : ElementCase
  byteSize : Int
  deriving DecidableEq, Repr

/-- `GetElementResult`: caller-allocated output struct, filled in place. -/
structure GetElementResult where
  end_of_sequence : Bool
  skip : Bool
  components : List Tensor
  deriving DecidableEq, Repr

/-! ## ByteBlockChecker -/

/-- The mutable state of `ByteBlockChecker`. -/
structure ByteBlockState where
  sum_total_bytes : Int
  prev_call_time_micros : Int
  check_block_size : Int
  max_bandwidth_bps : Int
  deriving DecidableEq, Repr

/-- The expected-sleep-time expression of `AddAndSleepCheck`:
`sum_total_bytes_ * 8.0 / (max_bandwidth_bps_ / (1000.0 * 1000.0))`,
assigned to an `int64_t`. The exact rational value of that expression is
`sum * 8 * 1000000 / maxBw`, and the `double`-to-`int64_t` assignment
truncates toward zero, which is `Int.tdiv`. (On the magnitudes arising in
this file the `double` computation is exact, so rational arithmetic is a
faithful model.) -/
def expectedSleepTime (sum maxBw : Int) : Int :=
  (sum * 8 * 1000000).tdiv maxBw

/-- `ByteBlockChecker::AddAndSleepCheck(total_bytes)`. `now1` is the value
read from `EnvTime::NowMicros()` before the sleep decision and `now2` the
value read after the sleep; the returned `Option Int` is the duration passed
to `Env::Default()->SleepForMicroseconds`, or `none` when no sleep occurs.
The source names the intermediate values `sum_total_bytes_` (after the
increment), `expected_sleep_time` and `elapsed`; they are inlined here. -/
def addAndSleepCheck (st : ByteBlockState) (total_bytes now1 now2 : Int) :
    ByteBlockState × Option Int :=
  if st.sum_total_bytes + total_bytes ≥ st.check_block_size then
    ({ st with sum_total_bytes := 0, prev_call_time_micros := now2 },
     if expectedSleepTime (st.sum_total_bytes + total_bytes) st.max_bandwidth_bps >
          now1 - st.prev_call_time_micros then
       some (expectedSleepTime (st.sum_total_bytes + total_bytes) st.max_bandwidth_bps -
             (now1 - st.prev_call_time_micros))
     else none)
  else
    ({ st with sum_total_bytes := st.sum_total_bytes + total_bytes }, none)

/-! ## GrpcDataTransferClient -/

/-- The lock-protected state of a `GrpcDataTransferClient`: the cancelled
flag, the `active_contexts_` set of in-flight `grpc::ClientContext` handles
(contexts are identified by `Nat` handles standing for their addresses), and
the shared `byte_block_checker_` (null when constructed without one). -/
structure GrpcClientState where
  cancelled : Bool
  active_contexts : List Nat
  byte_block_checker : Option ByteBlockState
  deriving DecidableEq, Repr

/-- `absl::flat_hash_set::insert` on the handle list (no duplicates). -/
def setInsert (l : List Nat) (x : Nat) : List Nat :=
  if x ∈ l then l else x :: l

/-- `absl::flat_hash_set::erase` on the handle list. -/
def setErase (l : List Nat) (x : Nat) : List Nat :=
  l.filter (fun y => y ≠ x)

/-- The `byte_block_checker_ != nullptr` guard around `AddAndSleepCheck` in
`GrpcDataTransferClient::GetElement`: returns the updated checker and the
sleep performed, if any. -/
def grpcCheckerStep (checker : Option ByteBlockState) (bytes now1 now2 : Int) :
    Option ByteBlockState × Option Int :=
  match checker with
  | none => (none, none)
  | some c =>
      let r := addAndSleepCheck c bytes now1 now2
      (some r.1, r.2)

/-- The `for` loop over `resp.uncompressed().components()`: each iteration
does `result.components.emplace_back()` and then `FromProto` into the new
slot, returning `Internal` on the first failure (the default-constructed
tensor stays in the vector). Returns the resulting component vector and
`true` when every component parsed. -/
def decodeLoop : List TensorProto → List Tensor → List Tensor × Bool
  | [], acc => (acc, true)
  | p :: ps, acc =>
      match p.fromProto with
      | some t => decodeLoop ps (acc ++ [t])
      | none => (acc ++ [Tensor.emptyT], false)

/-- Whether the response's element would make the decode loop fail: it is an
uncompressed element one of whose components `FromProto` rejects. -/
def respDecodeFails (resp : GetElementResponse) : Bool :=
  match resp.element with
  | .uncompressed comps => comps.any (fun p => !p.wellFormed)
  | _ => false

/-- The environment a single `GrpcDataTransferClient::GetElement` call
observes: the `grpc::Status` and `GetElementResponse` produced by the RPC,
and the two `EnvTime::NowMicros()` readings the byte-block checker makes. -/
structure GrpcEnv where
  rpc_s : GrpcStatus
  resp : GetElementResponse
  now1 : Int
  now2 : Int
  deriving DecidableEq, Repr

/-- Everything observable about one `GrpcDataTransferClient::GetElement`
call: the returned status, the caller's result struct, the client state
afterwards, the updated checker, the sleep performed (if any) and whether
the RPC was issued at all. -/
structure GrpcOutcome where
  status : Status
  result : GetElementResult
  cancelled : Bool
  active_contexts : List Nat
  checker : Option ByteBlockState
  sleep : Option Int
  rpcIssued : Bool
  deriving DecidableEq, Repr

/-- The common tail of `GrpcDataTransferClient::GetElement` (source lines
165–172): erase the context from `active_contexts_`, then return either
`WrapError("Failed to get element", s)` or `Status::OK()`. -/
def finishGrpc (st : GrpcClientState) (ctx : Nat) (active : List Nat)
    (s : GrpcStatus) (checker : Option ByteBlockState) (sleep : Option Int)
    (result : GetElementResult) : GrpcOutcome :=
  { status := if s.isOk then Status.okStatus else wrapError "Failed to get element" s,
    result := result,
    cancelled := st.cancelled,
    active_contexts := setErase active ctx,
    checker := checker,
    sleep := sleep,
    rpcIssued := true }

/-- `GrpcDataTransferClient::GetElement(req, result)`. `ctx` is the handle
of the stack-allocated `grpc::ClientContext` of this call; `result` is the
caller-supplied output struct as it stands when the call is made. Follows
the source line by line: cancelled check, context registration, RPC, byte
accounting, flag assignment, element switch (with the early `Internal`
return inside the uncompressed loop), context erasure, status check. -/
def grpcGetElement (st : GrpcClientState) (ctx : Nat) (env : GrpcEnv)
    (req : GetElementRequest) (result : GetElementResult) : GrpcOutcome :=
  if st.cancelled then
    { status := { code := .cancelled, msg := "Client was cancelled." },
      result := result,
      cancelled := st.cancelled,
      active_contexts := st.active_contexts,
      checker := st.byte_block_checker,
      sleep := none,
      rpcIssued := false }
  else
    let active := setInsert st.active_contexts ctx
    let cs := grpcCheckerStep st.byte_block_checker
        (env.resp.byteSize + req.byteSize) env.now1 env.now2
    let result1 : GetElementResult :=
      { result with
          end_of_sequence := env.resp.end_of_sequence,
          skip := env.resp.skip_task }
    match env.resp.element with
    | .compressed blob =>
        finishGrpc st ctx active env.rpc_s cs.1 cs.2
          { result1 with components := result1.components ++ [Tensor.variantComp blob] }
    | .uncompressed comps =>
        let d := decodeLoop comps result1.components
        if d.2 then
          finishGrpc st ctx active env.rpc_s cs.1 cs.2
            { result1 with components := d.1 }
        else
          { status := { code := .internalErr, msg := "Failed to parse tensor." },
            result := { result1 with components := d.1 },
            cancelled := st.cancelled,
            active_contexts := active,
            checker := cs.1,
            sleep := cs.2,
            rpcIssued := true }
    | .notSet =>
        finishGrpc st ctx active env.rpc_s cs.1 cs.2 result1

/-- `GrpcDataTransferClient::TryCancel()`: sets the cancelled flag and calls
`TryCancel` on every tracked context; returns the new state and the list of
context handles that were signalled. -/
def grpcTryCancel (st : GrpcClientState) : GrpcClientState × List Nat :=
  ({ st with cancelled := true }, st.active_contexts)

/-! ## LocalDataTransferClient -/

/-- A live `DataServiceWorkerImpl` as seen through its
`GetElementResult(&req, &result)` entry point (external collaborator). -/
structure Worker where
  getElementResult : GetElementRequest → GetElementResult → Status × GetElementResult

/-- The state of a `LocalDataTransferClient`. -/
structure LocalClientState where
  worker_address : String
  cancelled : Bool
  deriving DecidableEq, Repr

/-- Everything observable about one `LocalDataTransferClient::GetElement`
call: status, result, the cancelled flag afterwards, and whether a worker's
`GetElementResult` was invoked. -/
structure LocalOutcome where
  status : Status
  result : GetElementResult
  cancelled : Bool
  invoked : Bool

/-- The message built by `VerifyClientIsNotCancelled` via
`absl::Substitute("Client for worker $0 has been cancelled.", addr)`. -/
def localCancelledMsg (addr : String) : String :=
  "Client for worker " ++ addr ++ " has been cancelled."

/-- The message built by `GetWorker` via `absl::Substitute` when no local
worker is registered for the address. -/
def localNoWorkerMsg (addr : String) (taskId : Int) : String :=
  "Local worker at address " ++ addr ++
    " is no longer available; cancel request for task " ++ toString taskId ++ "."

/-- `LocalDataTransferClient::GetElement(req, result)`:
`VerifyClientIsNotCancelled`, then `GetWorker` via `LocalWorkers::Get`
(modelled by the `registry` lookup function), then the worker's direct
`GetElementResult` call. -/
def localGetElement (st : LocalClientState) (registry : String → Option Worker)
    (req : GetElementRequest) (result : GetElementResult) : LocalOutcome :=
  if st.cancelled then
    { status := { code := .cancelled, msg := localCancelledMsg st.worker_address },
      result := result, cancelled := st.cancelled, invoked := false }
  else
    match registry st.worker_address with
    | none =>
        { status := { code := .cancelled,
                      msg := localNoWorkerMsg st.worker_address req.task_id },
          result := result, cancelled := st.cancelled, invoked := false }
    | some w =>
        let r := w.getElementResult req result
        { status := r.1, result := r.2, cancelled := st.cancelled, invoked := true }

/-- `LocalDataTransferClient::TryCancel()`: sets the cancelled flag. -/
def localTryCancel (st : LocalClientState) : LocalClientState :=
  { st with cancelled := true }

/-! ## DataTransferClient dispatch and the session wrapper -/

/-- A constructed `DataTransferClient`: one of the two concrete variants. -/
inductive TransferClientState where
  | grpcClient (st : GrpcClientState)
  | localClient (st : LocalClientState)

/-- The cancelled flag of either client variant. -/
def clientCancelled : TransferClientState → Bool
  | .grpcClient st => st.cancelled
  | .localClient st => st.cancelled

/-- Virtual dispatch of `TryCancel` to the concrete client. -/
def clientTryCancel : TransferClientState → TransferClientState
  | .grpcClient st => .grpcClient (grpcTryCancel st).1
  | .localClient st => .localClient (localTryCancel st)

/-- The environment available to a dispatched `GetElement` call: the gRPC
call environment and fresh context handle (used by the network variant) and
the local-worker registry (used by the local variant). -/
structure CallEnv where
  ctx : Nat
  grpcEnv : GrpcEnv
  registry : String → Option Worker

/-- The observables of a dispatched `GetElement` call: status, the client
state afterwards, and whether the remote RPC was issued or a local worker
invoked. -/
structure ClientOutcome where
  status : Status
  result : GetElementResult
  state : TransferClientState
  issued : Bool

/-- Virtual dispatch of `GetElement` to the concrete client. -/
def clientGetElement (c : TransferClientState) (env : CallEnv)
    (req : GetElementRequest) (result : GetElementResult) : ClientOutcome :=
  match c with
  | .grpcClient st =>
      let o := grpcGetElement st env.ctx env.grpcEnv req result
      { status := o.status, result := o.result,
        state := .grpcClient
          { cancelled := o.cancelled,
            active_contexts := o.active_contexts,
            byte_block_checker := o.checker },
        issued := o.rpcIssued }
  | .localClient st =>
      let o := localGetElement st env.registry req result
      { status := o.status, result := o.result,
        state := .localClient { st with cancelled := o.cancelled },
        issued := o.invoked }

/-- Modelled from the spec: the symbolic network-RPC default
transfer-protocol name `kGrpcTransferProtocol`, declared in a header that is
not part of the provided source. -/
def kGrpcTransferProtocol : String := "grpc"

/-- Modelled from the spec: the symbolic local in-process transfer-protocol
name `kLocalTransferProtocol`, declared in a header that is not part of the
provided source. -/
def kLocalTransferProtocol : String := "local"

/-- `DataServiceWorkerClient::GetDataTransferProtocol()`: substitute the
local protocol when the configured protocol is the gRPC default and
`LocalWorkers::Get(address_)` (the `registry` lookup) is non-null. -/
def getDataTransferProtocol (transfer_protocol address : String)
    (registry : String → Option Worker) : String :=
  if transfer_protocol = kGrpcTransferProtocol ∧ (registry address).isSome then
    kLocalTransferProtocol
  else
    transfer_protocol

/-- The state of a `DataServiceWorkerClient` session: its construction
parameters and the lazily-initialized `client_` (null until the first
successful `EnsureInitialized`). -/
structure SessionState where
  address : String
  protocol : String
  transfer_protocol : String
  max_bandwidth_bps : Int
  client : Option TransferClientState

/-- `DataServiceWorkerClient::TryCancel()`, which is exactly
`client_->TryCancel()` with no null check: when `client_` is null (the
session was never initialized) the call dereferences a null pointer, which
has no defined outcome — modelled as `none`. Otherwise it delegates and
returns the updated session. -/
def sessionTryCancel (s : SessionState) : Option SessionState :=
  match s.client with
  | none => none
  | some c => some { s with client := some (clientTryCancel c) }

/-! ## GrpcTransferClientRegistrar and the shared checker -/

/-- The process-global state touched by the gRPC transfer-client factory:
`g_byte_block_checker` (identified here by the `max_bandwidth_bps` it was
constructed with, since the `ByteBlockChecker` constructor lives in a header
outside the provided source) plus a count of how many `ByteBlockChecker`
constructions have ever run. -/
structure GlobalRegistrarState where
  g_byte_block_checker : Option Int
  constructions : Nat
  deriving DecidableEq, Repr

/-- One run of the factory registered by `GrpcTransferClientRegistrar` with
configuration `max_bandwidth_bps`: constructs the global checker only when
it is still null and the configured bandwidth is positive; every created
client receives the (possibly null) global checker. -/
def grpcFactoryStep (g : GlobalRegistrarState) (max_bandwidth_bps : Int) :
    GlobalRegistrarState :=
  if g.g_byte_block_checker = none ∧ max_bandwidth_bps > 0 then
    { g_byte_block_checker := some max_bandwidth_bps,
      constructions := g.constructions + 1 }
  else g

/-- The process-global state after a sequence of gRPC-client creations with
the given bandwidth configurations, starting from process startup
(`g_byte_block_checker` null, nothing constructed). -/
def runFactory (cfgs : List Int) : GlobalRegistrarState :=
  cfgs.foldl grpcFactoryStep { g_byte_block_checker := none, constructions := 0 }

/-- A concrete live worker that answers every request with `Status::OK()`
and an untouched result, used to instantiate registries in witnesses. -/
def trivialWorker : Worker :=
  ⟨fun _ r => (Status.okStatus, r)⟩

/-! ## Helper lemmas -/

/-- If the decode loop fails, it has strictly extended the accumulator. -/
theorem decodeLoop_false_extend (ps : List TensorProto) :
    ∀ acc : List Tensor, (decodeLoop ps acc).2 = false →
      ∃ t : List Tensor, (decodeLoop ps acc).1 = acc ++ t ∧ t ≠ [] := by
  induction ps with
  | nil => intro acc h; simp [decodeLoop] at h
  | cons p ps ih =>
      intro acc h
      cases hp : p.fromProto with
      | some t =>
          have hstep : decodeLoop (p :: ps) acc = decodeLoop ps (acc ++ [t]) := by
            simp [decodeLoop, hp]
          rw [hstep] at h ⊢
          obtain ⟨u, hu, hne⟩ := ih (acc ++ [t]) h
          exact ⟨[t] ++ u, by simp [hu], by simp⟩
      | none =>
          have hstep : decodeLoop (p :: ps) acc = (acc ++ [Tensor.emptyT], false) := by
            simp [decodeLoop, hp]
          rw [hstep]
          exact ⟨[Tensor.emptyT], rfl, by simp⟩

/-- The decode loop fails exactly when some component is malformed. -/
theorem decodeLoop_false_iff (ps : List TensorProto) :
    ∀ acc : List Tensor,
      ((decodeLoop ps acc).2 = false ↔ ps.any (fun p => !p.wellFormed) = true) := by
  induction ps with
  | nil => intro acc; simp [decodeLoop]
  | cons p ps ih =>
      intro acc
      cases hp : p.wellFormed with
      | true => simp [decodeLoop, TensorProto.fromProto, hp, ih]
      | false => simp [decodeLoop, TensorProto.fromProto, hp]

/-! ## Claims -/

/-- C4: `AddAndSleepCheck(bytes)` increases the running sum by `bytes`; below
the block size no sleep occurs and the sum is kept; at or above the block
size the expected time `sum * 8.0 / (max_bandwidth_bps / 1e6)` microseconds
is compared with the elapsed time since the last reset and exactly the
shortfall is slept if and only if the expected time exceeds the elapsed
time; with max bandwidth 1,000,000 and block size 1,000,000, one call of
2,000,000 bytes sleeps 16,000,000 microseconds minus the elapsed time. -/
theorem addAndSleepCheck_accounting (st : ByteBlockState)
    (bytes now1 now2 t0 e n2 : Int) (he : e < 16000000) :
    (st.sum_total_bytes + bytes < st.check_block_size →
      addAndSleepCheck st bytes now1 now2 =
        ({ st with sum_total_bytes := st.sum_total_bytes + bytes }, none)) ∧
    (st.check_block_size ≤ st.sum_total_bytes + bytes →
      (addAndSleepCheck st bytes now1 now2).2 =
        (if expectedSleepTime (st.sum_total_bytes + bytes) st.max_bandwidth_bps >
             now1 - st.prev_call_time_micros then
           some (expectedSleepTime (st.sum_total_bytes + bytes) st.max_bandwidth_bps -
                 (now1 - st.prev_call_time_micros))
         else none)) ∧
    (addAndSleepCheck ⟨0, t0, 1000000, 1000000⟩ 2000000 (t0 + e) n2).2 =
      some (16000000 - e) := by
  refine ⟨fun h => ?_, fun h => ?_, ?_⟩
  · rw [addAndSleepCheck, if_neg (by omega)]
  · rw [addAndSleepCheck, if_pos (by omega)]
  · have hex : expectedSleepTime ((0 : Int) + 2000000) 1000000 = 16000000 := by decide
    have h1 : addAndSleepCheck ⟨0, t0, 1000000, 1000000⟩ 2000000 (t0 + e) n2 =
        (⟨0, n2, 1000000, 1000000⟩,
         if expectedSleepTime ((0 : Int) + 2000000) 1000000 > t0 + e - t0 then
           some (expectedSleepTime ((0 : Int) + 2000000) 1000000 - (t0 + e - t0))
         else none) := by
      rw [addAndSleepCheck, if_pos (show ((0 : Int) + 2000000 ≥ 1000000) by norm_num)]
    rw [h1, hex, show t0 + e - t0 = e from by ring, if_pos (by omega)]

/-- Witness for C4 at a concrete below-threshold input. -/
theorem addAndSleepCheck_accounting_witness :
    addAndSleepCheck ⟨0, 0, 10, 5⟩ 3 0 0 = (⟨0 + 3, 0, 10, 5⟩, none) :=
  (addAndSleepCheck_accounting ⟨0, 0, 10, 5⟩ 3 0 0 0 0 0 (by norm_num)).1 (by decide)

/-- C5 counterexample: a call that reaches the block size resets the sum to
zero (and stamps the new timestamp, proving the reset branch ran) even
though it performs no sleep, because the elapsed time already exceeds the
expected time — refuting "the sum is set to zero iff the call sleeps". -/
theorem addAndSleepCheck_reset_without_sleep_cex :
    (addAndSleepCheck ⟨0, 0, 100, 1000000⟩ 100 1000 2000).1.sum_total_bytes = 0 ∧
    ((0 : Int) + 100 ≠ 0) ∧
    (addAndSleepCheck ⟨0, 0, 100, 1000000⟩ 100 1000 2000).1.prev_call_time_micros = 2000 ∧
    (addAndSleepCheck ⟨0, 0, 100, 1000000⟩ 100 1000 2000).2 = none := by decide

/-- C5 amended: the sum is reset to zero exactly when the accumulated sum
reaches the block size — that is, whenever the sleep check triggers, whether
or not a sleep is actually performed; a sleep, in turn, only happens in
calls that also reset. -/
theorem addAndSleepCheck_reset_characterization (st : ByteBlockState)
    (bytes now1 now2 : Int) :
    (st.check_block_size ≤ st.sum_total_bytes + bytes →
      (addAndSleepCheck st bytes now1 now2).1.sum_total_bytes = 0 ∧
      (addAndSleepCheck st bytes now1 now2).1.prev_call_time_micros = now2) ∧
    (st.sum_total_bytes + bytes < st.check_block_size →
      (addAndSleepCheck st bytes now1 now2).1.sum_total_bytes =
        st.sum_total_bytes + bytes ∧
      (addAndSleepCheck st bytes now1 now2).2 = none) ∧
    ((addAndSleepCheck st bytes now1 now2).2 ≠ none →
      st.check_block_size ≤ st.sum_total_bytes + bytes ∧
      (addAndSleepCheck st bytes now1 now2).1.sum_total_bytes = 0) := by
  by_cases h : st.sum_total_bytes + bytes ≥ st.check_block_size
  · rw [addAndSleepCheck, if_pos h]
    exact ⟨fun _ => ⟨rfl, rfl⟩, fun h2 => absurd h (by omega), fun _ => ⟨h, rfl⟩⟩
  · rw [addAndSleepCheck, if_neg h]
    exact ⟨fun h2 => absurd h2 h, fun _ => ⟨rfl, rfl⟩, fun h2 => absurd rfl h2⟩

/-- Witness for C5's amended theorem at a concrete triggering input. -/
theorem addAndSleepCheck_reset_characterization_witness :
    (addAndSleepCheck ⟨0, 0, 100, 1000000⟩ 50 1000 2000).1.sum_total_bytes = 0 + 50 ∧
    (addAndSleepCheck ⟨0, 0, 100, 1000000⟩ 50 1000 2000).2 = none :=
  (addAndSleepCheck_reset_characterization ⟨0, 0, 100, 1000000⟩ 50 1000 2000).2.1
    (by decide)

/-- C1 (code bug): `GrpcDataTransferClient::GetElement` erases the call
context from `active_contexts_` only after the element switch, and the
uncompressed-decode failure path returns early before that point — at the
concrete input below the call completes with an Internal error while its
handle (7) is still in the set, a dangling handle. -/
theorem grpc_decode_failure_leaves_dangling_context :
    (grpcGetElement ⟨false, [], none⟩ 7
        ⟨⟨true, 0, "ok"⟩, ⟨false, false, .uncompressed [⟨false, 0⟩], 0⟩, 0, 0⟩
        ⟨1, 0⟩ ⟨false, false, []⟩).status.code = .internalErr ∧
    7 ∈ (grpcGetElement ⟨false, [], none⟩ 7
        ⟨⟨true, 0, "ok"⟩, ⟨false, false, .uncompressed [⟨false, 0⟩], 0⟩, 0, 0⟩
        ⟨1, 0⟩ ⟨false, false, []⟩).active_contexts := by decide

/-- C2 counterexample: a response with two uncompressed components whose
second fails to decode makes the call return Internal, yet the
caller-supplied result retains the first, successfully decoded component
(followed by the default-constructed tensor of the failing slot) — partial
components are not discarded. -/
theorem grpc_partial_components_cex :
    (grpcGetElement ⟨false, [], none⟩ 3
        ⟨⟨true, 0, "ok"⟩, ⟨false, false, .uncompressed [⟨true, 5⟩, ⟨false, 0⟩], 0⟩, 0, 0⟩
        ⟨1, 0⟩ ⟨false, false, []⟩).status.code = .internalErr ∧
    (grpcGetElement ⟨false, [], none⟩ 3
        ⟨⟨true, 0, "ok"⟩, ⟨false, false, .uncompressed [⟨true, 5⟩, ⟨false, 0⟩], 0⟩, 0, 0⟩
        ⟨1, 0⟩ ⟨false, false, []⟩).result.components =
      [Tensor.parsed 5, Tensor.emptyT] := by decide

/-- C2 amended: if any uncompressed component fails to decode the call does
return an Internal error, but the components decoded before the failure are
not discarded: the caller-supplied result's component vector is strictly
extended (ending in the default-constructed tensor of the failing slot) and
is only invalidated by the returned error status. -/
theorem grpc_decode_failure_keeps_partial (st : GrpcClientState) (ctx : Nat)
    (env : GrpcEnv) (req : GetElementRequest) (result : GetElementResult)
    (hc : st.cancelled = false) (hf : respDecodeFails env.resp = true) :
    (grpcGetElement st ctx env req result).status.code = .internalErr ∧
    ∃ t : List Tensor,
      (grpcGetElement st ctx env req result).result.components =
        result.components ++ t ∧ t ≠ [] := by
  have hcc : ¬ (st.cancelled = true) := by simp [hc]
  cases helem : env.resp.element with
  | compressed blob => rw [respDecodeFails, helem] at hf; simp at hf
  | notSet => rw [respDecodeFails, helem] at hf; simp at hf
  | uncompressed comps =>
      have hany : comps.any (fun p => !p.wellFormed) = true := by
        rw [respDecodeFails, helem] at hf; exact hf
      have hd : (decodeLoop comps result.components).2 = false :=
        (decodeLoop_false_iff comps result.components).2 hany
      obtain ⟨t, ht, hne⟩ := decodeLoop_false_extend comps result.components hd
      rw [grpcGetElement, if_neg hcc]
      simp only [helem]
      rw [if_neg (by simp [hd])]
      exact ⟨rfl, ⟨t, by simpa using ht, hne⟩⟩

/-- C10: when the call is not rejected up front as cancelled, the response's
end-of-sequence and skip flags are written into the caller's result and the
payload is decoded before the RPC status is examined: a decode failure
yields Internal even when the RPC itself failed, and a failed RPC with a
cleanly-parsing response still overwrites the result flags before the
wrapped transport error is returned. -/
theorem grpc_flags_and_decode_before_status (st : GrpcClientState) (ctx : Nat)
    (env : GrpcEnv) (req : GetElementRequest) (result : GetElementResult)
    (hc : st.cancelled = false) :
    ((grpcGetElement st ctx env req result).result.end_of_sequence =
        env.resp.end_of_sequence ∧
     (grpcGetElement st ctx env req result).result.skip = env.resp.skip_task) ∧
    (respDecodeFails env.resp = true →
      (grpcGetElement st ctx env req result).status.code = .internalErr) ∧
    (env.rpc_s.isOk = false → respDecodeFails env.resp = false →
      (grpcGetElement st ctx env req result).status =
        wrapError "Failed to get element" env.rpc_s) := by
  have hcc : ¬ (st.cancelled = true) := by simp [hc]
  cases helem : env.resp.element with
  | compressed blob =>
      rw [grpcGetElement, if_neg hcc]
      simp only [helem]
      refine ⟨⟨rfl, rfl⟩, fun hf => ?_, fun hs _ => ?_⟩
      · rw [respDecodeFails, helem] at hf; simp at hf
      · simp [finishGrpc, hs]
  | notSet =>
      rw [grpcGetElement, if_neg hcc]
      simp only [helem]
      refine ⟨⟨rfl, rfl⟩, fun hf => ?_, fun hs _ => ?_⟩
      · rw [respDecodeFails, helem] at hf; simp at hf
      · simp [finishGrpc, hs]
  | uncompressed comps =>
      rw [grpcGetElement, if_neg hcc]
      simp only [helem]
      by_cases hd : (decodeLoop comps result.components).2 = true
      · rw [if_pos (by simp [hd])]
        refine ⟨⟨rfl, rfl⟩, fun hf => ?_, fun hs _ => ?_⟩
        · have hany : comps.any (fun p => !p.wellFormed) = true := by
            rw [respDecodeFails, helem] at hf; exact hf
          have hfalse := (decodeLoop_false_iff comps result.components).2 hany
          rw [hfalse] at hd
          exact Bool.noConfusion hd
        · simp [finishGrpc, hs]
      · rw [if_neg (by simp [hd])]
        refine ⟨⟨rfl, rfl⟩, fun _ => rfl, fun _ hf => ?_⟩
        have hf' : comps.any (fun p => !p.wellFormed) = false := by
          rw [respDecodeFails, helem] at hf; exact hf
        have h2 : (decodeLoop comps result.components).2 = false := by
          cases hval : (decodeLoop comps result.components).2
          · rfl
          · exact absurd hval hd
        have h3 := (decodeLoop_false_iff comps result.components).1 h2
        simp [hf'] at h3

/-- Witness for C2's amended theorem at a concrete failing decode. -/
theorem grpc_decode_failure_keeps_partial_witness :
    (grpcGetElement ⟨false, [], none⟩ 4
        ⟨⟨true, 0, "ok"⟩, ⟨true, false, .uncompressed [⟨false, 1⟩], 0⟩, 0, 0⟩
        ⟨2, 0⟩ ⟨false, false, []⟩).status.code = .internalErr ∧
    ∃ t : List Tensor,
      (grpcGetElement ⟨false, [], none⟩ 4
          ⟨⟨true, 0, "ok"⟩, ⟨true, false, .uncompressed [⟨false, 1⟩], 0⟩, 0, 0⟩
          ⟨2, 0⟩ ⟨false, false, []⟩).result.components = [] ++ t ∧ t ≠ [] :=
  grpc_decode_failure_keeps_partial ⟨false, [], none⟩ 4
    ⟨⟨true, 0, "ok"⟩, ⟨true, false, .uncompressed [⟨false, 1⟩], 0⟩, 0, 0⟩
    ⟨2, 0⟩ ⟨false, false, []⟩ rfl (by decide)

/-- Witness for C10 at a concrete failed RPC with a cleanly-parsing
response. -/
theorem grpc_flags_and_decode_before_status_witness :
    (grpcGetElement ⟨false, [], none⟩ 1
        ⟨⟨false, 14, "unavailable"⟩, ⟨true, false, .notSet, 0⟩, 0, 0⟩
        ⟨1, 0⟩ ⟨false, false, []⟩).status =
      wrapError "Failed to get element" ⟨false, 14, "unavailable"⟩ :=
  (grpc_flags_and_decode_before_status ⟨false, [], none⟩ 1
      ⟨⟨false, 14, "unavailable"⟩, ⟨true, false, .notSet, 0⟩, 0, 0⟩
      ⟨1, 0⟩ ⟨false, false, []⟩ rfl).2.2 rfl rfl

/-- C6: once `TryCancel` has run on a transfer client (network or local),
that client's cancelled flag is set, and every `GetElement` on a cancelled
client returns a Cancelled error immediately, issues no remote or local
call, and leaves the client cancelled — so all subsequent calls are rejected
the same way. -/
theorem client_cancelled_rejects (c : TransferClientState) (env : CallEnv)
    (req : GetElementRequest) (result : GetElementResult)
    (h : clientCancelled c = true) :
    (clientGetElement c env req result).status.code = .cancelled ∧
    (clientGetElement c env req result).issued = false ∧
    clientCancelled (clientGetElement c env req result).state = true ∧
    clientCancelled (clientTryCancel c) = true := by
  cases c with
  | grpcClient st =>
      have hst : st.cancelled = true := h
      refine ⟨?_, ?_, ?_, rfl⟩ <;>
        simp [clientGetElement, grpcGetElement, hst, clientCancelled]
  | localClient st =>
      have hst : st.cancelled = true := h
      refine ⟨?_, ?_, ?_, rfl⟩ <;>
        simp [clientGetElement, localGetElement, hst, clientCancelled]

/-- Witness for C6: a cancelled local client at a concrete request. -/
theorem client_cancelled_rejects_witness :
    (clientGetElement (.localClient ⟨"w0", true⟩)
        ⟨0, ⟨⟨true, 0, "ok"⟩, ⟨false, false, .notSet, 0⟩, 0, 0⟩, fun _ => none⟩
        ⟨0, 0⟩ ⟨false, false, []⟩).status.code = .cancelled ∧
    (clientGetElement (.localClient ⟨"w0", true⟩)
        ⟨0, ⟨⟨true, 0, "ok"⟩, ⟨false, false, .notSet, 0⟩, 0, 0⟩, fun _ => none⟩
        ⟨0, 0⟩ ⟨false, false, []⟩).issued = false ∧
    clientCancelled (clientGetElement (.localClient ⟨"w0", true⟩)
        ⟨0, ⟨⟨true, 0, "ok"⟩, ⟨false, false, .notSet, 0⟩, 0, 0⟩, fun _ => none⟩
        ⟨0, 0⟩ ⟨false, false, []⟩).state = true ∧
    clientCancelled (clientTryCancel (.localClient ⟨"w0", true⟩)) = true :=
  client_cancelled_rejects (.localClient ⟨"w0", true⟩)
    ⟨0, ⟨⟨true, 0, "ok"⟩, ⟨false, false, .notSet, 0⟩, 0, 0⟩, fun _ => none⟩
    ⟨0, 0⟩ ⟨false, false, []⟩ rfl

/-- C8: a `GetElement` on a non-cancelled local client whose address has no
live worker in the registry fails with a Cancelled (hence non-OK) error
whose message contains both the worker address and the request's task id,
and no worker is invoked. -/
theorem local_no_worker_cancelled (st : LocalClientState)
    (registry : String → Option Worker) (req : GetElementRequest)
    (result : GetElementResult) (hc : st.cancelled = false)
    (hw : registry st.worker_address = none) :
    (localGetElement st registry req result).status.code = .cancelled ∧
    (localGetElement st registry req result).status.code ≠ .ok ∧
    (∃ u v, (localGetElement st registry req result).status.msg =
        u ++ st.worker_address ++ v) ∧
    (∃ u v, (localGetElement st registry req result).status.msg =
        u ++ toString req.task_id ++ v) ∧
    (localGetElement st registry req result).invoked = false := by
  have hcc : ¬ (st.cancelled = true) := by simp [hc]
  rw [localGetElement, if_neg hcc, hw]
  refine ⟨rfl, by simp, ?_, ?_, rfl⟩
  · refine ⟨"Local worker at address ",
      " is no longer available; cancel request for task " ++
        toString req.task_id ++ ".", ?_⟩
    show localNoWorkerMsg st.worker_address req.task_id = _
    simp [localNoWorkerMsg, String.append_assoc]
  · refine ⟨"Local worker at address " ++ st.worker_address ++
        " is no longer available; cancel request for task ", ".", ?_⟩
    show localNoWorkerMsg st.worker_address req.task_id = _
    simp [localNoWorkerMsg, String.append_assoc]

/-- Witness for C8 at a concrete empty registry. -/
theorem local_no_worker_cancelled_witness :
    (localGetElement ⟨"wk", false⟩ (fun _ => none) ⟨42, 0⟩
        ⟨false, false, []⟩).status.code = .cancelled ∧
    (localGetElement ⟨"wk", false⟩ (fun _ => none) ⟨42, 0⟩
        ⟨false, false, []⟩).status.code ≠ .ok ∧
    (∃ u v, (localGetElement ⟨"wk", false⟩ (fun _ => none) ⟨42, 0⟩
        ⟨false, false, []⟩).status.msg = u ++ "wk" ++ v) ∧
    (∃ u v, (localGetElement ⟨"wk", false⟩ (fun _ => none) ⟨42, 0⟩
        ⟨false, false, []⟩).status.msg = u ++ toString (42 : Int) ++ v) ∧
    (localGetElement ⟨"wk", false⟩ (fun _ => none) ⟨42, 0⟩
        ⟨false, false, []⟩).invoked = false :=
  local_no_worker_cancelled ⟨"wk", false⟩ (fun _ => none) ⟨42, 0⟩
    ⟨false, false, []⟩ rfl rfl

/-- C3 counterexample: on a session whose transfer client was never
initialized, `TryCancel` is not a no-op that returns normally — it
dereferences the null `client_`, modelled as the faulting outcome `none`,
and in particular does not return the unchanged session. -/
theorem sessionTryCancel_uninitialized_cex :
    sessionTryCancel ⟨"addr", "grpc", "grpc", 0, none⟩ = none ∧
    sessionTryCancel ⟨"addr", "grpc", "grpc", 0, none⟩ ≠
      some ⟨"addr", "grpc", "grpc", 0, none⟩ :=
  ⟨rfl, by simp [sessionTryCancel]⟩

/-- C3 amended: `DataServiceWorkerClient::TryCancel` delegates to the
underlying client unconditionally; on an initialized session it cancels that
client, while on a never-initialized session it dereferences the null
`client_` (a fault, modelled `none`) rather than being a safe no-op. -/
theorem sessionTryCancel_delegates (s : SessionState) :
    (s.client = none → sessionTryCancel s = none) ∧
    (∀ c, s.client = some c →
      sessionTryCancel s = some { s with client := some (clientTryCancel c) }) := by
  constructor
  · intro h; simp only [sessionTryCancel, h]
  · intro c h; simp only [sessionTryCancel, h]

/-- Witness for C3's amended theorem on a concrete uninitialized session. -/
theorem sessionTryCancel_delegates_witness :
    sessionTryCancel ⟨"b", "p", "grpc", 7, none⟩ = none :=
  (sessionTryCancel_delegates ⟨"b", "p", "grpc", 7, none⟩).1 rfl

/-- C7 counterexample: with the configured protocol already the local one
and an empty registry, the selected protocol is the local protocol although
the claimed condition (configured = gRPC default and a live local worker) is
false — the claimed "if and only if" fails. -/
theorem getDataTransferProtocol_iff_cex :
    ¬ (getDataTransferProtocol kLocalTransferProtocol "addr" (fun _ => none) =
          kLocalTransferProtocol ↔
        (kLocalTransferProtocol = kGrpcTransferProtocol ∧
          ((fun _ => (none : Option Worker)) "addr").isSome = true)) := by
  decide

/-- C7 amended: the substitution happens exactly when the configured
protocol is the gRPC default and the registry has a live worker for the
address — in that case the local protocol is selected — and in every other
case the configured protocol is returned unchanged (so the selected protocol
can also be the local one simply because it was configured). -/
theorem getDataTransferProtocol_characterization (tp addr : String)
    (reg : String → Option Worker) :
    ((tp = kGrpcTransferProtocol ∧ (reg addr).isSome = true) →
      getDataTransferProtocol tp addr reg = kLocalTransferProtocol) ∧
    (¬ (tp = kGrpcTransferProtocol ∧ (reg addr).isSome = true) →
      getDataTransferProtocol tp addr reg = tp) ∧
    (getDataTransferProtocol tp addr reg ≠ tp ↔
      (tp = kGrpcTransferProtocol ∧ (reg addr).isSome = true)) := by
  by_cases h : tp = kGrpcTransferProtocol ∧ (reg addr).isSome = true
  · rw [getDataTransferProtocol, if_pos h]
    exact ⟨fun _ => rfl, fun h2 => absurd h h2,
      ⟨fun _ => h, fun _ => by rw [h.1]; decide⟩⟩
  · rw [getDataTransferProtocol, if_neg h]
    exact ⟨fun h2 => absurd h2 h, fun _ => rfl, by simp [h]⟩

/-- Witness for C7's amended theorem: gRPC default plus a live local worker
selects the local protocol. -/
theorem getDataTransferProtocol_characterization_witness :
    getDataTransferProtocol kGrpcTransferProtocol "a"
      (fun _ => some trivialWorker) = kLocalTransferProtocol :=
  (getDataTransferProtocol_characterization kGrpcTransferProtocol "a"
      (fun _ => some trivialWorker)).1 ⟨rfl, rfl⟩

/-- C9: across any sequence of gRPC-client creations, at most one
`ByteBlockChecker` is ever constructed (so in particular at most one per
positive max-bandwidth configuration); a creation whose configured max
bandwidth is ≤ 0 constructs nothing and leaves the global checker as it
was; and a client holding no checker never sleeps for bandwidth accounting
in `GetElement`. -/
theorem throttle_singleton :
    (∀ cfgs : List Int, (runFactory cfgs).constructions ≤ 1) ∧
    (∀ (g : GlobalRegistrarState) (bw : Int), bw ≤ 0 →
      (grpcFactoryStep g bw).constructions = g.constructions ∧
      (grpcFactoryStep g bw).g_byte_block_checker = g.g_byte_block_checker) ∧
    (∀ (st : GrpcClientState) (ctx : Nat) (env : GrpcEnv)
        (req : GetElementRequest) (result : GetElementResult),
      st.byte_block_checker = none →
      (grpcGetElement st ctx env req result).sleep = none) := by
  refine ⟨?_, ?_, ?_⟩
  · intro cfgs
    have key : ∀ (l : List Int) (g : GlobalRegistrarState),
        (g.g_byte_block_checker = none → g.constructions = 0) →
        g.constructions ≤ 1 → (l.foldl grpcFactoryStep g).constructions ≤ 1 := by
      intro l
      induction l with
      | nil => intro g h0 h1; simpa using h1
      | cons a t ih =>
          intro g h0 h1
          rw [List.foldl_cons]
          by_cases hc : g.g_byte_block_checker = none ∧ a > 0
          · have hstep : grpcFactoryStep g a = ⟨some a, g.constructions + 1⟩ := by
              rw [grpcFactoryStep, if_pos hc]
            apply ih
            · rw [hstep]; intro hn; exact Option.noConfusion hn
            · rw [hstep]; have := h0 hc.1; simp at this ⊢; omega
          · have hstep : grpcFactoryStep g a = g := by
              rw [grpcFactoryStep, if_neg hc]
            rw [hstep]; exact ih g h0 h1
    exact key cfgs ⟨none, 0⟩ (fun _ => rfl) (by norm_num)
  · intro g bw hbw
    have hng : ¬ (g.g_byte_block_checker = none ∧ bw > 0) := by
      intro hand
      exact absurd hand.2 (by omega)
    rw [grpcFactoryStep, if_neg hng]
    exact ⟨rfl, rfl⟩
  · intro st ctx env req result hnone
    rw [grpcGetElement]
    by_cases hcan : st.cancelled = true
    · rw [if_pos hcan]
    · rw [if_neg hcan]
      cases helem : env.resp.element with
      | compressed blob => simp [helem, hnone, grpcCheckerStep, finishGrpc]
      | notSet => simp [helem, hnone, grpcCheckerStep, finishGrpc]
      | uncompressed comps =>
          simp only [helem, hnone, grpcCheckerStep]
          split
          · simp [finishGrpc]
          · rfl

/-- Witness for C9: a non-positive configuration constructs nothing and a
checkerless client sleeps for nothing. -/
theorem throttle_singleton_witness :
    (grpcFactoryStep ⟨none, 0⟩ (-5)).constructions = 0 ∧
    (grpcGetElement ⟨false, [], none⟩ 1
        ⟨⟨true, 0, "ok"⟩, ⟨false, false, .notSet, 0⟩, 0, 0⟩ ⟨0, 0⟩
        ⟨false, false, []⟩).sleep = none :=
  ⟨(throttle_singleton.2.1 ⟨none, 0⟩ (-5) (by norm_num)).1,
   throttle_singleton.2.2 ⟨false, [], none⟩ 1
     ⟨⟨true, 0, "ok"⟩, ⟨false, false, .notSet, 0⟩, 0, 0⟩ ⟨0, 0⟩
     ⟨false, false, []⟩ rfl⟩

end WorkerClient
